import Mathlib

/-!
Shallow embedding of the redis-custom-allocator crate (src/lib.rs).

The crate defines a trait CustomAllocator with two required primitives,
allocate and deallocate, and default (derived) methods allocate_zeroed,
grow, grow_zeroed, shrink and by_ref built only from those primitives;
an impl of the trait for std::alloc::System with the uninhabited error
type std::convert::Infallible; and a trait MemoryConsumption.

Model. Byte memory is a total map from addresses to byte values.  A
provider is a pair of primitive operations acting on an allocator state
(provider-internal state plus the byte memory); allocate threads the
state and returns either the provider's error value or a block (a
NonNull slice, modelled as base address plus actual length, which may
exceed the requested size).  The derived operations are transcribed
from the default bodies in src/lib.rs: ptr::copy_nonoverlapping is
modelled as a simultaneous copy of n bytes (equivalent to the real copy
under its non-overlap contract), slice fill(0) as zeroing the whole
returned range.  The debug_assert guards are runtime no-ops in release
builds and are not modelled; the size orderings they check appear as
hypotheses of the theorems, mirroring the trait's safety preconditions.
-/

namespace Alloc

/-- Byte memory: a total map from addresses to byte values. -/
abbrev Mem := Nat → Nat

/-- Layout descriptor, as std::alloc::Layout: requested size and alignment. -/
structure Layout where
  size : Nat
  align : Nat

/-- A returned block handle: NonNull modelled as base address plus the
actual length of the returned slice (which may exceed the requested size). -/
structure Block where
  ptr : Nat
  len : Nat

/-- Observable allocator state: the provider's internal state plus the byte memory. -/
structure AllocState (σ : Type) where
  prov : σ
  mem : Mem

/-- The two required primitives of the CustomAllocator trait
(src/lib.rs lines 36 and 44).  The associated Error type is the
parameter ε; allocate may fail, deallocate may not. -/
structure CustomAllocator (σ ε : Type) where
  allocate : AllocState σ → Layout → AllocState σ × Except ε Block
  deallocate : AllocState σ → Nat → Layout → AllocState σ

/-- std::ptr::copy_nonoverlapping(src, dst, n): the n bytes starting at
dst become the n bytes that started at src, read simultaneously (the
real copy requires the two ranges not to overlap, under which the two
semantics agree). -/
def copyNonoverlapping (m : Mem) (src dst n : Nat) : Mem :=
  fun a => if dst ≤ a ∧ a < dst + n then m (src + (a - dst)) else m a

/-- slice fill(0) over the whole returned range: zero the n bytes starting at dst. -/
def fillZero (m : Mem) (dst n : Nat) : Mem :=
  fun a => if dst ≤ a ∧ a < dst + n then 0 else m a

namespace CustomAllocator

/-- Default body of allocate_zeroed (src/lib.rs lines 61-68): call
allocate, then fill the whole returned slice with zero. -/
def allocate_zeroed (A : CustomAllocator σ ε) (s : AllocState σ) (layout : Layout) :
    AllocState σ × Except ε Block :=
  match A.allocate s layout with
  | (s1, Except.error e) => (s1, Except.error e)
  | (s1, Except.ok blk) =>
      (⟨s1.prov, fillZero s1.mem blk.ptr blk.len⟩, Except.ok blk)

/-- Default body of grow (src/lib.rs lines 108-136): allocate the new
layout (propagating failure), copy old_layout.size() bytes from the old
block to the start of the new one, deallocate the old block with
old_layout, return the new block. -/
def grow (A : CustomAllocator σ ε) (s : AllocState σ) (ptr : Nat)
    (old_layout new_layout : Layout) : AllocState σ × Except ε Block :=
  match A.allocate s new_layout with
  | (s1, Except.error e) => (s1, Except.error e)
  | (s1, Except.ok new_ptr) =>
      (A.deallocate
        ⟨s1.prov, copyNonoverlapping s1.mem ptr new_ptr.ptr old_layout.size⟩
        ptr old_layout,
       Except.ok new_ptr)

/-- Default body of grow_zeroed (src/lib.rs lines 175-203): as grow,
but the fresh block comes from allocate_zeroed. -/
def grow_zeroed (A : CustomAllocator σ ε) (s : AllocState σ) (ptr : Nat)
    (old_layout new_layout : Layout) : AllocState σ × Except ε Block :=
  match A.allocate_zeroed s new_layout with
  | (s1, Except.error e) => (s1, Except.error e)
  | (s1, Except.ok new_ptr) =>
      (A.deallocate
        ⟨s1.prov, copyNonoverlapping s1.mem ptr new_ptr.ptr old_layout.size⟩
        ptr old_layout,
       Except.ok new_ptr)

/-- Default body of shrink (src/lib.rs lines 243-271): allocate the new
layout (propagating failure), copy only new_layout.size() bytes,
deallocate the old block with old_layout, return the new block. -/
def shrink (A : CustomAllocator σ ε) (s : AllocState σ) (ptr : Nat)
    (old_layout new_layout : Layout) : AllocState σ × Except ε Block :=
  match A.allocate s new_layout with
  | (s1, Except.error e) => (s1, Except.error e)
  | (s1, Except.ok new_ptr) =>
      (A.deallocate
        ⟨s1.prov, copyNonoverlapping s1.mem ptr new_ptr.ptr new_layout.size⟩
        ptr old_layout,
       Except.ok new_ptr)

/-- by_ref (src/lib.rs lines 278-283) returns self: methods called on
the returned reference resolve to the same provider instance, so in the
embedding the adapter is the provider itself. -/
def by_ref (A : CustomAllocator σ ε) : CustomAllocator σ ε := A

end CustomAllocator

/-- std::convert::Infallible: an error type with no values. -/
inductive Infallible : Type

/-- Abstract model of the GlobalAlloc facility backing std::alloc::System
(external to the crate): alloc returns a raw pointer (possibly null,
modelled as address 0) and may update facility state and memory. -/
structure GlobalAllocFacility (γ : Type) where
  alloc : γ → Mem → Layout → γ × Mem × Nat
  dealloc : γ → Mem → Nat → Layout → γ × Mem

/-- impl CustomAllocator for std::alloc::System (src/lib.rs lines
286-297): allocate builds the slice from_raw_parts_mut(self.alloc(layout),
layout.size()) with no null check and wraps it in Ok; deallocate
forwards to self.dealloc. -/
def systemAllocatorImpl (g : GlobalAllocFacility γ) : CustomAllocator γ Infallible where
  allocate := fun s layout =>
    (⟨(g.alloc s.prov s.mem layout).1, (g.alloc s.prov s.mem layout).2.1⟩,
     Except.ok ⟨(g.alloc s.prov s.mem layout).2.2, layout.size⟩)
  deallocate := fun s p layout =>
    ⟨(g.dealloc s.prov s.mem p layout).1, (g.dealloc s.prov s.mem p layout).2⟩

/-- Primitive-call events, used to observe when the default resize
bodies invoke the provider's primitives. -/
inductive AllocEvent where
  | alloc (layout : Layout)
  | dealloc (p : Nat) (layout : Layout)

/-- Instrument a provider so each primitive call appends an event to a
trace carried in the provider state; the underlying behaviour is unchanged. -/
def traced (A : CustomAllocator σ ε) : CustomAllocator (σ × List AllocEvent) ε where
  allocate := fun s layout =>
    (⟨((A.allocate ⟨s.prov.1, s.mem⟩ layout).1.prov,
        s.prov.2 ++ [AllocEvent.alloc layout]),
      (A.allocate ⟨s.prov.1, s.mem⟩ layout).1.mem⟩,
     (A.allocate ⟨s.prov.1, s.mem⟩ layout).2)
  deallocate := fun s p layout =>
    ⟨((A.deallocate ⟨s.prov.1, s.mem⟩ p layout).prov,
       s.prov.2 ++ [AllocEvent.dealloc p layout]),
     (A.deallocate ⟨s.prov.1, s.mem⟩ p layout).mem⟩

/-- True when the operation result is Ok. -/
def resultIsOk : Except ε Block → Bool
  | Except.ok _ => true
  | Except.error _ => false

/-- The MemoryConsumption trait (src/lib.rs lines 354-361): one method,
memory_consumption, taking the value by shared reference and returning
a byte count.  A shared-reference method with no other inputs is a pure
function of the value. -/
structure MemoryConsumption (α : Type) where
  memory_consumption : α → Nat

/-- One call of memory_consumption through the shared reference: the
caller keeps the value (unchanged, as the receiver is a shared
reference) and receives the count. -/
def MemoryConsumption.call (inst : MemoryConsumption α) (v : α) : α × Nat :=
  (v, inst.memory_consumption v)

/-- Concrete test memory: the byte at address a is a (mod nothing,
bytes are unconstrained naturals in the model). -/
def mem0 : Mem := fun a => a

/-- Concrete layout of size 2. -/
def L2 : Layout := ⟨2, 1⟩

/-- Concrete layout of size 4. -/
def L4 : Layout := ⟨4, 1⟩

/-- A concrete bump provider: allocates consecutive blocks of exactly
the requested size starting at the counter, never touches memory,
deallocate is a no-op. -/
def bumpA : CustomAllocator Nat Unit where
  allocate := fun s layout => (⟨s.prov + layout.size, s.mem⟩, Except.ok ⟨s.prov, layout.size⟩)
  deallocate := fun s _ _ => s

/-- Initial state for the bump provider: next free address 10, memory mem0. -/
def s0 : AllocState Nat := ⟨10, mem0⟩

/-- A provider whose allocate always fails. -/
def failA : CustomAllocator Unit Unit where
  allocate := fun s _ => (s, Except.error ())
  deallocate := fun s _ _ => s

/-- Reading inside the copied range returns the source byte at the same offset. -/
theorem copy_at_offset (m : Mem) (src dst n i : Nat) (h : i < n) :
    copyNonoverlapping m src dst n (dst + i) = m (src + i) := by
  unfold copyNonoverlapping
  rw [if_pos ⟨Nat.le_add_right dst i, Nat.add_lt_add_left h dst⟩, Nat.add_sub_cancel_left]

/-- Reading outside the copied range returns the untouched byte. -/
theorem copy_out_of_range (m : Mem) (src dst n a : Nat)
    (h : ¬ (dst ≤ a ∧ a < dst + n)) :
    copyNonoverlapping m src dst n a = m a := by
  unfold copyNonoverlapping
  rw [if_neg h]

/-- Reading inside the zeroed range returns 0. -/
theorem fill_at_offset (m : Mem) (dst n i : Nat) (h : i < n) :
    fillZero m dst n (dst + i) = 0 := by
  unfold fillZero
  rw [if_pos ⟨Nat.le_add_right dst i, Nat.add_lt_add_left h dst⟩]

/-- Reading outside the zeroed range returns the untouched byte. -/
theorem fill_out_of_range (m : Mem) (dst n a : Nat)
    (h : ¬ (dst ≤ a ∧ a < dst + n)) :
    fillZero m dst n a = m a := by
  unfold fillZero
  rw [if_neg h]

/-- An address strictly left of or at least n past dst lies outside the range of n bytes at dst. -/
theorem not_in_range_of_disjoint {a dst n : Nat} (h : a < dst ∨ dst + n ≤ a) :
    ¬ (dst ≤ a ∧ a < dst + n) :=
  fun hc => h.elim
    (fun h1 => Nat.lt_irrefl dst (Nat.lt_of_le_of_lt hc.1 h1))
    (fun h2 => Nat.lt_irrefl a (Nat.lt_of_lt_of_le hc.2 h2))

/-- C1: with the default grow body, for a currently-allocated old block
(fresh allocation disjoint from it and not clobbered by allocate or by
deallocating the old block) and new_layout.size at least old_layout.size:
when allocate succeeds, grow returns exactly the block allocate produced,
the final state is the old block's deallocation with old_layout applied
to the post-copy state, and the first old_layout.size bytes of the
returned block equal the first old_layout.size bytes the old block held
before the call. -/
theorem grow_default_preserves_prefix
    (σ ε : Type) (A : Alloc.CustomAllocator σ ε) (s : Alloc.AllocState σ) (ptr : Nat)
    (old_layout new_layout : Alloc.Layout) (s1 : Alloc.AllocState σ) (new_blk : Alloc.Block)
    (hsize : old_layout.size ≤ new_layout.size)
    (hA : A.allocate s new_layout = (s1, Except.ok new_blk))
    (hfresh : ∀ i, i < old_layout.size → s1.mem (ptr + i) = s.mem (ptr + i))
    (hdisj : ∀ i, i < old_layout.size →
        ptr + i < new_blk.ptr ∨ new_blk.ptr + new_blk.len ≤ ptr + i)
    (hdealloc : ∀ (t : Alloc.AllocState σ) (i : Nat), i < old_layout.size →
        (A.deallocate t ptr old_layout).mem (new_blk.ptr + i) = t.mem (new_blk.ptr + i)) :
    Alloc.CustomAllocator.grow A s ptr old_layout new_layout =
      (A.deallocate
        ⟨s1.prov, Alloc.copyNonoverlapping s1.mem ptr new_blk.ptr old_layout.size⟩
        ptr old_layout,
       Except.ok new_blk)
    ∧ ∀ i, i < old_layout.size →
        (Alloc.CustomAllocator.grow A s ptr old_layout new_layout).1.mem (new_blk.ptr + i) =
          s.mem (ptr + i) := by
  have hg : Alloc.CustomAllocator.grow A s ptr old_layout new_layout =
      (A.deallocate
        ⟨s1.prov, Alloc.copyNonoverlapping s1.mem ptr new_blk.ptr old_layout.size⟩
        ptr old_layout,
       Except.ok new_blk) := by
    unfold Alloc.CustomAllocator.grow
    rw [hA]
  refine ⟨hg, ?_⟩
  intro i hi
  rw [hg]
  have h2 := hdealloc
    ⟨s1.prov, Alloc.copyNonoverlapping s1.mem ptr new_blk.ptr old_layout.size⟩ i hi
  exact h2.trans ((Alloc.copy_at_offset s1.mem ptr new_blk.ptr old_layout.size i hi).trans
    (hfresh i hi))

/-- Witness for C1 at the concrete bump provider: old block of size 2 at
address 0, grown to size 4; the fresh block sits at 10 with length 4 and
its first two bytes equal bytes 0 and 1 of the old block. -/
theorem grow_default_preserves_prefix_w :
    Alloc.CustomAllocator.grow Alloc.bumpA Alloc.s0 0 Alloc.L2 Alloc.L4 =
      (Alloc.bumpA.deallocate
        ⟨14, Alloc.copyNonoverlapping Alloc.mem0 0 10 2⟩ 0 Alloc.L2,
       Except.ok ⟨10, 4⟩)
    ∧ ∀ i, i < 2 →
        (Alloc.CustomAllocator.grow Alloc.bumpA Alloc.s0 0 Alloc.L2 Alloc.L4).1.mem (10 + i) =
          Alloc.s0.mem (0 + i) :=
  grow_default_preserves_prefix Nat Unit Alloc.bumpA Alloc.s0 0 Alloc.L2 Alloc.L4
    ⟨14, Alloc.mem0⟩ ⟨10, 4⟩ (by decide) rfl (fun i _ => rfl)
    (fun i hi => Or.inl (by
      have h2 : i < 2 := hi
      show 0 + i < 10
      omega))
    (fun t i _ => rfl)

/-- C2: with the default grow, grow_zeroed and shrink bodies, when the
internal fresh allocation fails the operation returns the very same
error and the resulting state is exactly the post-allocate state: the
copy never runs and deallocate is never applied, so the caller's block
is left as allocate left it (untouched, since allocate does not receive
the old block). -/
theorem resize_error_propagation
    (σ ε : Type) (A : Alloc.CustomAllocator σ ε) (s : Alloc.AllocState σ) (ptr : Nat)
    (old_layout new_layout : Alloc.Layout) (s1 : Alloc.AllocState σ) (e : ε)
    (hA : A.allocate s new_layout = (s1, Except.error e)) :
    Alloc.CustomAllocator.grow A s ptr old_layout new_layout = (s1, Except.error e)
    ∧ Alloc.CustomAllocator.grow_zeroed A s ptr old_layout new_layout = (s1, Except.error e)
    ∧ Alloc.CustomAllocator.shrink A s ptr old_layout new_layout = (s1, Except.error e) := by
  have hz : Alloc.CustomAllocator.allocate_zeroed A s new_layout = (s1, Except.error e) := by
    unfold Alloc.CustomAllocator.allocate_zeroed
    rw [hA]
  refine ⟨?_, ?_, ?_⟩
  · unfold Alloc.CustomAllocator.grow
    rw [hA]
  · unfold Alloc.CustomAllocator.grow_zeroed
    rw [hz]
  · unfold Alloc.CustomAllocator.shrink
    rw [hA]

/-- Witness for C2 at the always-failing provider: the error value and
the untouched state come straight back from all three resize operations. -/
theorem resize_error_propagation_w :
    Alloc.CustomAllocator.grow Alloc.failA ⟨(), Alloc.mem0⟩ 0 Alloc.L2 Alloc.L4 =
      (⟨(), Alloc.mem0⟩, Except.error ())
    ∧ Alloc.CustomAllocator.grow_zeroed Alloc.failA ⟨(), Alloc.mem0⟩ 0 Alloc.L2 Alloc.L4 =
        (⟨(), Alloc.mem0⟩, Except.error ())
    ∧ Alloc.CustomAllocator.shrink Alloc.failA ⟨(), Alloc.mem0⟩ 0 Alloc.L2 Alloc.L4 =
        (⟨(), Alloc.mem0⟩, Except.error ()) :=
  resize_error_propagation Unit Unit Alloc.failA ⟨(), Alloc.mem0⟩ 0 Alloc.L2 Alloc.L4
    ⟨(), Alloc.mem0⟩ () rfl

/-- C3: with the default allocate_zeroed body, when allocate succeeds
the same block comes back with every byte of the whole returned range
(all blk.len bytes, possibly more than the requested size) set to zero,
and when allocate fails the very same error is returned. -/
theorem allocate_zeroed_spec
    (σ ε : Type) (A : Alloc.CustomAllocator σ ε) (s : Alloc.AllocState σ)
    (layout : Alloc.Layout) :
    (∀ (s1 : Alloc.AllocState σ) (blk : Alloc.Block),
      A.allocate s layout = (s1, Except.ok blk) →
        Alloc.CustomAllocator.allocate_zeroed A s layout =
          (⟨s1.prov, Alloc.fillZero s1.mem blk.ptr blk.len⟩, Except.ok blk)
        ∧ ∀ i, i < blk.len →
            (Alloc.CustomAllocator.allocate_zeroed A s layout).1.mem (blk.ptr + i) = 0)
    ∧ ∀ (s1 : Alloc.AllocState σ) (e : ε),
        A.allocate s layout = (s1, Except.error e) →
          Alloc.CustomAllocator.allocate_zeroed A s layout = (s1, Except.error e) := by
  constructor
  · intro s1 blk hA
    have hz : Alloc.CustomAllocator.allocate_zeroed A s layout =
        (⟨s1.prov, Alloc.fillZero s1.mem blk.ptr blk.len⟩, Except.ok blk) := by
      unfold Alloc.CustomAllocator.allocate_zeroed
      rw [hA]
    refine ⟨hz, ?_⟩
    intro i hi
    rw [hz]
    exact Alloc.fill_at_offset s1.mem blk.ptr blk.len i hi
  · intro s1 e hA
    unfold Alloc.CustomAllocator.allocate_zeroed
    rw [hA]

/-- Witness for C3: on the bump provider a size-4 request is zeroed over
its whole returned range, and on the failing provider the error comes back. -/
theorem allocate_zeroed_spec_w :
    (∀ i, i < 4 →
      (Alloc.CustomAllocator.allocate_zeroed Alloc.bumpA Alloc.s0 Alloc.L4).1.mem (10 + i) = 0)
    ∧ Alloc.CustomAllocator.allocate_zeroed Alloc.failA ⟨(), Alloc.mem0⟩ Alloc.L4 =
        (⟨(), Alloc.mem0⟩, Except.error ()) :=
  ⟨((allocate_zeroed_spec Nat Unit Alloc.bumpA Alloc.s0 Alloc.L4).1
      ⟨14, Alloc.mem0⟩ ⟨10, 4⟩ rfl).2,
   (allocate_zeroed_spec Unit Unit Alloc.failA ⟨(), Alloc.mem0⟩ Alloc.L4).2
      ⟨(), Alloc.mem0⟩ () rfl⟩

/-- C4: with the default grow_zeroed body, under the grow preconditions
plus the provider guarantees that the fresh block holds at least
new_layout.size bytes and that deallocating the old block leaves the
fresh block's bytes alone: after success the first old_layout.size bytes
of the returned block equal the old block's pre-call prefix, and every
byte from old_layout.size up to the end of the returned range (blk.len
many bytes, so in particular the range up to new_layout.size) is zero,
since the destination came from allocate_zeroed and the copy overwrote
only the first old_layout.size bytes. -/
theorem grow_zeroed_spec
    (σ ε : Type) (A : Alloc.CustomAllocator σ ε) (s : Alloc.AllocState σ) (ptr : Nat)
    (old_layout new_layout : Alloc.Layout) (s1 : Alloc.AllocState σ) (new_blk : Alloc.Block)
    (hsize : old_layout.size ≤ new_layout.size)
    (hlen : new_layout.size ≤ new_blk.len)
    (hA : A.allocate s new_layout = (s1, Except.ok new_blk))
    (hfresh : ∀ i, i < old_layout.size → s1.mem (ptr + i) = s.mem (ptr + i))
    (hdisj : ∀ i, i < old_layout.size →
        ptr + i < new_blk.ptr ∨ new_blk.ptr + new_blk.len ≤ ptr + i)
    (hdealloc : ∀ (t : Alloc.AllocState σ) (i : Nat), i < new_blk.len →
        (A.deallocate t ptr old_layout).mem (new_blk.ptr + i) = t.mem (new_blk.ptr + i)) :
    Alloc.CustomAllocator.grow_zeroed A s ptr old_layout new_layout =
      (A.deallocate
        ⟨s1.prov, Alloc.copyNonoverlapping
          (Alloc.fillZero s1.mem new_blk.ptr new_blk.len) ptr new_blk.ptr old_layout.size⟩
        ptr old_layout,
       Except.ok new_blk)
    ∧ (∀ i, i < old_layout.size →
        (Alloc.CustomAllocator.grow_zeroed A s ptr old_layout new_layout).1.mem
          (new_blk.ptr + i) = s.mem (ptr + i))
    ∧ ∀ i, old_layout.size ≤ i → i < new_blk.len →
        (Alloc.CustomAllocator.grow_zeroed A s ptr old_layout new_layout).1.mem
          (new_blk.ptr + i) = 0 := by
  have hz : Alloc.CustomAllocator.allocate_zeroed A s new_layout =
      (⟨s1.prov, Alloc.fillZero s1.mem new_blk.ptr new_blk.len⟩, Except.ok new_blk) := by
    unfold Alloc.CustomAllocator.allocate_zeroed
    rw [hA]
  have hg : Alloc.CustomAllocator.grow_zeroed A s ptr old_layout new_layout =
      (A.deallocate
        ⟨s1.prov, Alloc.copyNonoverlapping
          (Alloc.fillZero s1.mem new_blk.ptr new_blk.len) ptr new_blk.ptr old_layout.size⟩
        ptr old_layout,
       Except.ok new_blk) := by
    unfold Alloc.CustomAllocator.grow_zeroed
    rw [hz]
  refine ⟨hg, ?_, ?_⟩
  · intro i hi
    rw [hg]
    have h2 := hdealloc
      ⟨s1.prov, Alloc.copyNonoverlapping
        (Alloc.fillZero s1.mem new_blk.ptr new_blk.len) ptr new_blk.ptr old_layout.size⟩
      i (Nat.lt_of_lt_of_le hi (Nat.le_trans hsize hlen))
    refine h2.trans ?_
    refine (Alloc.copy_at_offset _ ptr new_blk.ptr old_layout.size i hi).trans ?_
    refine (Alloc.fill_out_of_range s1.mem new_blk.ptr new_blk.len (ptr + i)
      (Alloc.not_in_range_of_disjoint (hdisj i hi))).trans (hfresh i hi)
  · intro i hlo hhi
    rw [hg]
    have h2 := hdealloc
      ⟨s1.prov, Alloc.copyNonoverlapping
        (Alloc.fillZero s1.mem new_blk.ptr new_blk.len) ptr new_blk.ptr old_layout.size⟩
      i hhi
    refine h2.trans ?_
    have hout : ¬ (new_blk.ptr ≤ new_blk.ptr + i ∧
        new_blk.ptr + i < new_blk.ptr + old_layout.size) := by
      intro hc
      exact Nat.lt_irrefl i (Nat.lt_of_lt_of_le (Nat.lt_of_add_lt_add_left hc.2) hlo)
    refine (Alloc.copy_out_of_range _ ptr new_blk.ptr old_layout.size _ hout).trans ?_
    exact Alloc.fill_at_offset s1.mem new_blk.ptr new_blk.len i hhi

/-- Witness for C4 at the bump provider: old block of size 2 at address
0 grown zeroed to size 4; bytes 0 and 1 of the new block at 10 match the
old prefix and bytes 2 and 3 are zero. -/
theorem grow_zeroed_spec_w :
    (∀ i, i < 2 →
      (Alloc.CustomAllocator.grow_zeroed Alloc.bumpA Alloc.s0 0 Alloc.L2 Alloc.L4).1.mem
        (10 + i) = Alloc.s0.mem (0 + i))
    ∧ ∀ i, 2 ≤ i → i < 4 →
        (Alloc.CustomAllocator.grow_zeroed Alloc.bumpA Alloc.s0 0 Alloc.L2 Alloc.L4).1.mem
          (10 + i) = 0 :=
  ⟨(grow_zeroed_spec Nat Unit Alloc.bumpA Alloc.s0 0 Alloc.L2 Alloc.L4
      ⟨14, Alloc.mem0⟩ ⟨10, 4⟩ (by decide) (by decide) rfl (fun i _ => rfl)
      (fun i hi => Or.inl (by
        have h2 : i < 2 := hi
        show 0 + i < 10
        omega))
      (fun t i _ => rfl)).2.1,
   (grow_zeroed_spec Nat Unit Alloc.bumpA Alloc.s0 0 Alloc.L2 Alloc.L4
      ⟨14, Alloc.mem0⟩ ⟨10, 4⟩ (by decide) (by decide) rfl (fun i _ => rfl)
      (fun i hi => Or.inl (by
        have h2 : i < 2 := hi
        show 0 + i < 10
        omega))
      (fun t i _ => rfl)).2.2⟩

/-- C5: with the default shrink body, for new_layout.size at most
old_layout.size and a successful fresh allocation disjoint from the old
block: shrink returns the allocated block, the final state is the old
block's deallocation with old_layout applied to the post-copy state, the
first new_layout.size bytes of the returned block equal the old block's
prefix, and only new_layout.size bytes were copied: every byte of the
returned range past new_layout.size still holds what allocate put there. -/
theorem shrink_default_spec
    (σ ε : Type) (A : Alloc.CustomAllocator σ ε) (s : Alloc.AllocState σ) (ptr : Nat)
    (old_layout new_layout : Alloc.Layout) (s1 : Alloc.AllocState σ) (new_blk : Alloc.Block)
    (hsize : new_layout.size ≤ old_layout.size)
    (hlen : new_layout.size ≤ new_blk.len)
    (hA : A.allocate s new_layout = (s1, Except.ok new_blk))
    (hfresh : ∀ i, i < new_layout.size → s1.mem (ptr + i) = s.mem (ptr + i))
    (hdisj : ∀ i, i < new_layout.size →
        ptr + i < new_blk.ptr ∨ new_blk.ptr + new_blk.len ≤ ptr + i)
    (hdealloc : ∀ (t : Alloc.AllocState σ) (i : Nat), i < new_blk.len →
        (A.deallocate t ptr old_layout).mem (new_blk.ptr + i) = t.mem (new_blk.ptr + i)) :
    Alloc.CustomAllocator.shrink A s ptr old_layout new_layout =
      (A.deallocate
        ⟨s1.prov, Alloc.copyNonoverlapping s1.mem ptr new_blk.ptr new_layout.size⟩
        ptr old_layout,
       Except.ok new_blk)
    ∧ (∀ i, i < new_layout.size →
        (Alloc.CustomAllocator.shrink A s ptr old_layout new_layout).1.mem
          (new_blk.ptr + i) = s.mem (ptr + i))
    ∧ ∀ i, new_layout.size ≤ i → i < new_blk.len →
        (Alloc.CustomAllocator.shrink A s ptr old_layout new_layout).1.mem
          (new_blk.ptr + i) = s1.mem (new_blk.ptr + i) := by
  have hg : Alloc.CustomAllocator.shrink A s ptr old_layout new_layout =
      (A.deallocate
        ⟨s1.prov, Alloc.copyNonoverlapping s1.mem ptr new_blk.ptr new_layout.size⟩
        ptr old_layout,
       Except.ok new_blk) := by
    unfold Alloc.CustomAllocator.shrink
    rw [hA]
  refine ⟨hg, ?_, ?_⟩
  · intro i hi
    rw [hg]
    have h2 := hdealloc
      ⟨s1.prov, Alloc.copyNonoverlapping s1.mem ptr new_blk.ptr new_layout.size⟩
      i (Nat.lt_of_lt_of_le hi hlen)
    exact h2.trans ((Alloc.copy_at_offset s1.mem ptr new_blk.ptr new_layout.size i hi).trans
      (hfresh i hi))
  · intro i hlo hhi
    rw [hg]
    have h2 := hdealloc
      ⟨s1.prov, Alloc.copyNonoverlapping s1.mem ptr new_blk.ptr new_layout.size⟩ i hhi
    refine h2.trans ?_
    have hout : ¬ (new_blk.ptr ≤ new_blk.ptr + i ∧
        new_blk.ptr + i < new_blk.ptr + new_layout.size) := by
      intro hc
      exact Nat.lt_irrefl i (Nat.lt_of_lt_of_le (Nat.lt_of_add_lt_add_left hc.2) hlo)
    exact Alloc.copy_out_of_range s1.mem ptr new_blk.ptr new_layout.size _ hout

/-- Witness for C5 at the bump provider: old block of size 4 at address
0 shrunk to size 2; the new block at 10 has length 2, its two bytes
match the old prefix, and nothing past offset 2 was copied. -/
theorem shrink_default_spec_w :
    Alloc.CustomAllocator.shrink Alloc.bumpA Alloc.s0 0 Alloc.L4 Alloc.L2 =
      (Alloc.bumpA.deallocate
        ⟨12, Alloc.copyNonoverlapping Alloc.mem0 0 10 2⟩ 0 Alloc.L4,
       Except.ok ⟨10, 2⟩)
    ∧ (∀ i, i < 2 →
        (Alloc.CustomAllocator.shrink Alloc.bumpA Alloc.s0 0 Alloc.L4 Alloc.L2).1.mem
          (10 + i) = Alloc.s0.mem (0 + i))
    ∧ ∀ i, 2 ≤ i → i < 2 →
        (Alloc.CustomAllocator.shrink Alloc.bumpA Alloc.s0 0 Alloc.L4 Alloc.L2).1.mem
          (10 + i) = Alloc.mem0 (10 + i) :=
  shrink_default_spec Nat Unit Alloc.bumpA Alloc.s0 0 Alloc.L4 Alloc.L2
    ⟨12, Alloc.mem0⟩ ⟨10, 2⟩ (by decide) (by decide) rfl (fun i _ => rfl)
    (fun i hi => Or.inl (by
      have h2 : i < 2 := hi
      show 0 + i < 10
      omega))
    (fun t i _ => rfl)

/-- C6: the by_ref adapter is the provider itself, so it has no
allocation effect of its own and every operation of the interface,
primitive or derived, called through it gives the same result and the
same state as the direct call. -/
theorem by_ref_transparent (σ ε : Type) (A : Alloc.CustomAllocator σ ε) :
    Alloc.CustomAllocator.by_ref A = A
    ∧ (∀ (s : Alloc.AllocState σ) (layout : Alloc.Layout),
        (Alloc.CustomAllocator.by_ref A).allocate s layout = A.allocate s layout)
    ∧ (∀ (s : Alloc.AllocState σ) (p : Nat) (layout : Alloc.Layout),
        (Alloc.CustomAllocator.by_ref A).deallocate s p layout = A.deallocate s p layout)
    ∧ (∀ (s : Alloc.AllocState σ) (layout : Alloc.Layout),
        Alloc.CustomAllocator.allocate_zeroed (Alloc.CustomAllocator.by_ref A) s layout =
          Alloc.CustomAllocator.allocate_zeroed A s layout)
    ∧ (∀ (s : Alloc.AllocState σ) (p : Nat) (ol nl : Alloc.Layout),
        Alloc.CustomAllocator.grow (Alloc.CustomAllocator.by_ref A) s p ol nl =
          Alloc.CustomAllocator.grow A s p ol nl)
    ∧ (∀ (s : Alloc.AllocState σ) (p : Nat) (ol nl : Alloc.Layout),
        Alloc.CustomAllocator.grow_zeroed (Alloc.CustomAllocator.by_ref A) s p ol nl =
          Alloc.CustomAllocator.grow_zeroed A s p ol nl)
    ∧ ∀ (s : Alloc.AllocState σ) (p : Nat) (ol nl : Alloc.Layout),
        Alloc.CustomAllocator.shrink (Alloc.CustomAllocator.by_ref A) s p ol nl =
          Alloc.CustomAllocator.shrink A s p ol nl :=
  ⟨rfl, fun _ _ => rfl, fun _ _ _ => rfl, fun _ _ => rfl,
   fun _ _ _ _ => rfl, fun _ _ _ _ => rfl, fun _ _ _ _ => rfl⟩

/-- C7: the System adapter declares the uninhabited error type
Infallible, so by case analysis on that type every value of its result
type is Ok, and in particular its allocate returns Ok on every call. -/
theorem system_allocate_never_fails :
    IsEmpty Alloc.Infallible
    ∧ (∀ (r : Except Alloc.Infallible Alloc.Block), ∃ blk, r = Except.ok blk)
    ∧ ∀ (γ : Type) (g : Alloc.GlobalAllocFacility γ) (s : Alloc.AllocState γ)
        (layout : Alloc.Layout),
        Alloc.resultIsOk ((Alloc.systemAllocatorImpl g).allocate s layout).2 = true :=
  by
  refine ⟨⟨fun e => nomatch e⟩, ?_, ?_⟩
  · intro r
    cases r with
    | ok blk => exact ⟨blk, rfl⟩
    | error e => exact nomatch e
  · intro γ g s layout
    rfl

/-- C8: observed through the event trace, each default resize body
calls the primitives in a fixed order: exactly one allocation request,
followed by exactly one deallocation of the old block with old_layout
when and only when the operation succeeds; on failure no deallocation
happens.  In particular the old block is never deallocated twice and
never on the failure path. -/
theorem resize_dealloc_order
    (σ ε : Type) (A : Alloc.CustomAllocator σ ε) (p : σ) (evs : List Alloc.AllocEvent)
    (m : Alloc.Mem) (ptr : Nat) (old_layout new_layout : Alloc.Layout) :
    ((Alloc.CustomAllocator.grow (Alloc.traced A) ⟨(p, evs), m⟩
        ptr old_layout new_layout).1.prov.2 =
      evs ++ (if Alloc.resultIsOk (Alloc.CustomAllocator.grow (Alloc.traced A) ⟨(p, evs), m⟩
                  ptr old_layout new_layout).2
              then [Alloc.AllocEvent.alloc new_layout,
                    Alloc.AllocEvent.dealloc ptr old_layout]
              else [Alloc.AllocEvent.alloc new_layout]))
    ∧ ((Alloc.CustomAllocator.grow_zeroed (Alloc.traced A) ⟨(p, evs), m⟩
        ptr old_layout new_layout).1.prov.2 =
      evs ++ (if Alloc.resultIsOk (Alloc.CustomAllocator.grow_zeroed (Alloc.traced A)
                  ⟨(p, evs), m⟩ ptr old_layout new_layout).2
              then [Alloc.AllocEvent.alloc new_layout,
                    Alloc.AllocEvent.dealloc ptr old_layout]
              else [Alloc.AllocEvent.alloc new_layout]))
    ∧ (Alloc.CustomAllocator.shrink (Alloc.traced A) ⟨(p, evs), m⟩
        ptr old_layout new_layout).1.prov.2 =
      evs ++ (if Alloc.resultIsOk (Alloc.CustomAllocator.shrink (Alloc.traced A)
                  ⟨(p, evs), m⟩ ptr old_layout new_layout).2
              then [Alloc.AllocEvent.alloc new_layout,
                    Alloc.AllocEvent.dealloc ptr old_layout]
              else [Alloc.AllocEvent.alloc new_layout]) := by
  rcases h : A.allocate ⟨p, m⟩ new_layout with ⟨s1, r⟩
  cases r <;>
    refine ⟨?_, ?_, ?_⟩ <;>
      simp [Alloc.CustomAllocator.grow, Alloc.CustomAllocator.grow_zeroed,
        Alloc.CustomAllocator.shrink, Alloc.CustomAllocator.allocate_zeroed,
        Alloc.traced, Alloc.resultIsOk, h]

/-- C9: in the embedding a shared-reference method is a pure function of
the value, so a call to memory_consumption hands the value back
unchanged, and two successive calls on the unmutated value report the
same byte count. -/
theorem memory_consumption_stable
    (α : Type) (inst : Alloc.MemoryConsumption α) (v : α) :
    (inst.call v).1 = v
    ∧ (inst.call ((inst.call v).1)).2 = (inst.call v).2 :=
  ⟨rfl, rfl⟩

/-- A facility whose alloc hands back the null pointer (address 0) and
changes nothing, used to record that the System adapter performs no null
check. -/
def nullFacility : Alloc.GlobalAllocFacility Unit where
  alloc := fun u m _ => (u, m, 0)
  dealloc := fun u m _ _ => (u, m)

/-- C10: the System adapter's allocate always returns Ok with the block
built directly from the facility's returned pointer and a length of
exactly layout.size — never larger — with no null check: even a null
(address 0) facility pointer is passed straight into the returned block. -/
theorem system_allocate_exact_size :
    (∀ (γ : Type) (g : Alloc.GlobalAllocFacility γ) (s : Alloc.AllocState γ)
        (layout : Alloc.Layout),
        (Alloc.systemAllocatorImpl g).allocate s layout =
          (⟨(g.alloc s.prov s.mem layout).1, (g.alloc s.prov s.mem layout).2.1⟩,
           Except.ok ⟨(g.alloc s.prov s.mem layout).2.2, layout.size⟩))
    ∧ ∀ (layout : Alloc.Layout),
        (Alloc.systemAllocatorImpl nullFacility).allocate ⟨(), Alloc.mem0⟩ layout =
          (⟨(), Alloc.mem0⟩, Except.ok ⟨0, layout.size⟩) :=
  ⟨fun _ _ _ _ => rfl, fun _ => rfl⟩

end Alloc
